import Mathlib

/-!
Verification of the Often AI metered LLM gateway and ledger.

This file gives a shallow embedding, in Lean 4, of the balance/billing logic
of the repository's two services:

* the multi-LLM proxy (`unnamed/part_000`): provider routing, pricing,
  Anthropic request translation, and the `/v1/chat/completions` handler with
  its atomic debit transaction;
* the bank functions (`functions/index.js`): admin deposits, transfers,
  and currency conversion over a Firestore-backed ledger.

JavaScript numbers appearing as monetary amounts are embedded as `ℚ`
(doubles hold the integer ranges used here exactly, and `ℚ` also represents
the fractional values which the validation code does not rule out).  Token
counts and microdollar rates are embedded as `ℕ`.  `BigInt` arithmetic is
embedded as `ℤ` with `Int.tdiv` for its truncating division, and a `BigInt`
operation that would throw (conversion of a non-integer, division by zero)
is embedded as `Option.none`.  Firestore is modelled as a map from account
id to account document plus an append-only journal; each `db.runTransaction`
body is a pure state transformer, and a thrown error aborts the transaction,
embedded as returning the input state unchanged together with the HTTP
status the handler's catch block maps the error to.
-/

namespace OftenAI

/-! # Supported currencies and units (`functions/index.js`, lines 27-34) -/

def SUPPORTED : List String := ["USD", "USDC", "ETH", "BTC", "SOL"]

/-- Lookup in the `UNITS` object: smallest-unit factor per whole currency
unit; `none` embeds the JS `undefined` returned for any other key. -/
def UNITS (c : String) : Option ℕ :=
  if c = "USD" then some 1000000
  else if c = "USDC" then some 1000000
  else if c = "ETH" then some 1000000000
  else if c = "BTC" then some 100000000
  else if c = "SOL" then some 1000000000
  else none

/-! # Provider routing (`unnamed/part_000`, lines 58-64) -/

/-- String prefix test, used to embed `String.startsWith` (and the
anchored regex test) in a form the kernel evaluates. -/
def strStartsWith (s p : String) : Bool :=
  List.isPrefixOf p.data s.data

/-- The regex test `/^(gpt-|o1|o3|o4)/` followed by the `startsWith` chain. -/
def detectProvider (model : String) : String :=
  if strStartsWith model "gpt-" || strStartsWith model "o1"
      || strStartsWith model "o3" || strStartsWith model "o4" then "openai"
  else if strStartsWith model "claude-" then "anthropic"
  else if strStartsWith model "gemini-" then "google"
  else if strStartsWith model "mistral-" then "mistral"
  else "together"

/-! # Pricing table and cost engine (`unnamed/part_000`, lines 68-102) -/

structure Pricing where
  input : ℕ
  output : ℕ
  deriving DecidableEq, Repr

/-- Lookup in the `PRICING` object (microdollars per 1M tokens);
`none` embeds the JS `undefined` for an unknown model. -/
def PRICING (m : String) : Option Pricing :=
  if m = "gpt-4o" then some ⟨2500000, 10000000⟩
  else if m = "gpt-4o-mini" then some ⟨150000, 600000⟩
  else if m = "gpt-4-turbo" then some ⟨10000000, 30000000⟩
  else if m = "gpt-3.5-turbo" then some ⟨500000, 1500000⟩
  else if m = "o1" then some ⟨15000000, 60000000⟩
  else if m = "o1-mini" then some ⟨3000000, 12000000⟩
  else if m = "o3-mini" then some ⟨1100000, 4400000⟩
  else if m = "claude-sonnet-4-20250514" then some ⟨3000000, 15000000⟩
  else if m = "claude-opus-4-20250514" then some ⟨15000000, 75000000⟩
  else if m = "claude-haiku-4-20250414" then some ⟨800000, 4000000⟩
  else if m = "claude-3-5-sonnet-20241022" then some ⟨3000000, 15000000⟩
  else if m = "claude-3-5-haiku-20241022" then some ⟨800000, 4000000⟩
  else if m = "gemini-2.5-pro" then some ⟨1250000, 10000000⟩
  else if m = "gemini-2.5-flash" then some ⟨150000, 600000⟩
  else if m = "gemini-2.0-flash" then some ⟨100000, 400000⟩
  else if m = "mistral-large-latest" then some ⟨2000000, 6000000⟩
  else if m = "mistral-small-latest" then some ⟨200000, 600000⟩
  else if m = "meta-llama/Llama-3.1-70B-Instruct-Turbo" then some ⟨880000, 880000⟩
  else if m = "meta-llama/Llama-3.1-8B-Instruct-Turbo" then some ⟨180000, 180000⟩
  else if m = "deepseek-ai/DeepSeek-V3" then some ⟨900000, 900000⟩
  else none

def DEFAULT_PRICING : Pricing := ⟨2500000, 10000000⟩

def MIN_BALANCE_MICROS : ℕ := 1000

/-- The `PRICING[model] || DEFAULT_PRICING` lookup (a found row is an object,
hence always truthy, so `||` is exactly the `Option.getD` fallback). -/
def pricingFor (m : String) : Pricing := (PRICING m).getD DEFAULT_PRICING

/-- Cost of a completion in microdollars, from `calculateCostMicros`:
`Math.ceil((promptTokens * p.input + completionTokens * p.output) / 1_000_000)`.
The double-precision sum is exact below 2^53, and the exact quotient sits at
distance at least 10⁻⁶ from any integer it does not equal — far above an ulp
at every magnitude the pricing table can produce here — so `Math.ceil` of the
float quotient equals the exact rational ceiling embedded here. -/
def calculateCostMicros (model : String) (promptTokens completionTokens : ℕ) : ℕ :=
  (⌈((promptTokens * (pricingFor model).input
      + completionTokens * (pricingFor model).output : ℕ) : ℚ) / 1000000⌉).toNat

/-! # Anthropic translation (`unnamed/part_000`, lines 122-162) -/

structure ChatMsg where
  role : String
  content : String
  deriving DecidableEq, Repr

/-- A JS `stop` value: either a string or an array of strings. -/
inductive StopVal where
  | str (s : String)
  | arr (l : List String)
  deriving DecidableEq, Repr

/-- The fields of the request body read by `toAnthropicRequest`.  `none`
embeds an absent field. -/
structure ChatBody where
  model : String
  messages : List ChatMsg
  max_tokens : Option ℕ
  temperature : Option ℚ
  top_p : Option ℚ
  stop : Option StopVal
  deriving DecidableEq, Repr

def ANTHROPIC_MAX_TOKENS (m : String) : Option ℕ :=
  if m = "claude-sonnet-4-20250514" then some 8192
  else if m = "claude-opus-4-20250514" then some 8192
  else if m = "claude-haiku-4-20250414" then some 8192
  else if m = "claude-3-5-sonnet-20241022" then some 8192
  else if m = "claude-3-5-haiku-20241022" then some 8192
  else none

structure AnthropicReq where
  model : String
  messages : List ChatMsg
  max_tokens : ℕ
  system : Option String
  temperature : Option ℚ
  top_p : Option ℚ
  stop_sequences : Option (List String)
  deriving DecidableEq, Repr

/-- One step of the system-message accumulation:
`system = system ? system + "\n" + m.content : m.content`.
JS truthiness makes an accumulated empty string behave like `undefined`. -/
def jsJoin (sys : Option String) (c : String) : Option String :=
  match sys with
  | some s => if s = "" then some c else some (s ++ "\n" ++ c)
  | none => some c

/-- One step of the message loop on a non-system message: if the last
collected message has the same role its content is extended in place
(`last.content += "\n" + m.content`), otherwise the message is pushed. -/
def pushCoalesce : List ChatMsg → ChatMsg → List ChatMsg
  | [], m => [m]
  | [l], m => if l.role = m.role then [⟨l.role, l.content ++ "\n" ++ m.content⟩] else [l, m]
  | x :: y :: rest, m => x :: pushCoalesce (y :: rest) m

/-- The `for (const m of messages)` loop of `toAnthropicRequest`, carrying
the accumulated `system` string and the `filtered` array. -/
def anthropicScan : Option String → List ChatMsg → List ChatMsg → Option String × List ChatMsg
  | sys, fil, [] => (sys, fil)
  | sys, fil, m :: rest =>
    if m.role = "system" then anthropicScan (jsJoin sys m.content) fil rest
    else anthropicScan sys (pushCoalesce fil m) rest

/-- The `max_tokens` computation `max_tokens || ANTHROPIC_MAX_TOKENS[model] || 4096`:
JS `||`, so a present value of `0` is falsy and falls through to the defaults. -/
def jsMaxTokens : Option ℕ → String → ℕ
  | some n, model => if n = 0 then (ANTHROPIC_MAX_TOKENS model).getD 4096 else n
  | none, model => (ANTHROPIC_MAX_TOKENS model).getD 4096

/-- The `stop` handling: attached as `stop_sequences` only when truthy (an
array, or a non-empty string, the string being wrapped in an array). -/
def jsStopSeqs : Option StopVal → Option (List String)
  | some (StopVal.str s) => if s = "" then none else some [s]
  | some (StopVal.arr l) => some l
  | none => none

/-- The `if (system) req.system = system` guard: the field is attached only
when the accumulated string is truthy (non-empty). -/
def jsSystemField : Option String → Option String
  | some s => if s = "" then none else some s
  | none => none

/-- The translation `toAnthropicRequest`. -/
def toAnthropicRequest (b : ChatBody) : AnthropicReq :=
  let sf := anthropicScan none [] b.messages
  { model := b.model
    messages := sf.2
    max_tokens := jsMaxTokens b.max_tokens b.model
    system := jsSystemField sf.1
    temperature := b.temperature
    top_p := b.top_p
    stop_sequences := jsStopSeqs b.stop }

/-- Concatenation of a list of strings with a newline between elements,
used to state what the system extraction and the coalescing produce. -/
def joinNl : List String → String
  | [] => ""
  | [s] => s
  | s :: t :: rest => s ++ "\n" ++ joinNl (t :: rest)

/-- Top-down statement of role coalescing: adjacent messages with the same
role are merged by concatenating their contents with a newline. -/
def coalesce : List ChatMsg → List ChatMsg
  | [] => []
  | [m] => [m]
  | m :: n :: rest =>
    if m.role = n.role then coalesce (⟨m.role, m.content ++ "\n" ++ n.content⟩ :: rest)
    else m :: coalesce (n :: rest)
termination_by l => l.length

/-- Contents of the messages with role `system`, in order. -/
def systemParts (msgs : List ChatMsg) : List String :=
  (msgs.filter (fun m => m.role == "system")).map (fun m => m.content)

/-- The messages whose role is not `system`, in order. -/
def nonSystem (msgs : List ChatMsg) : List ChatMsg :=
  msgs.filter (fun m => !(m.role == "system"))

/-! # The ledger store -/

/-- An `accounts/{uid}` document.  Balances are read with `|| 0`, so an
absent currency key and an explicit zero are indistinguishable; the balances
map is embedded as a total function. -/
structure Account where
  balances : String → ℚ
  status : String

/-- Typed metadata maps appearing in journal entries. -/
inductive TxMeta where
  | noMeta
  | llm (provider model : String) (promptTokens completionTokens : ℕ)
  | party (counterparty : String)
  | conv (fromCurrency toCurrency : String) (fromAmount toAmount : ℚ) (rateUsed : ℚ)
  deriving DecidableEq

/-- A document of the `transactions` collection (the `createdAt` server
timestamp is not modelled). -/
structure JournalEntry where
  accountId : String
  type : String
  currency : String
  amount : ℚ
  balanceBefore : ℚ
  balanceAfter : ℚ
  description : String
  metadata : TxMeta
  deriving DecidableEq

/-- The persistent store: the `accounts` collection and the append-only
`transactions` collection. -/
structure LedgerState where
  accounts : String → Option Account
  journal : List JournalEntry

/-- Point update of a balances map, embedding
`tx.update(ref, {[`balances.c`]: v})`. -/
def setBal (f : String → ℚ) (k : String) (v : ℚ) : String → ℚ :=
  fun x => if x = k then v else f x

/-- Point update of the accounts collection. -/
def setAccount (f : String → Option Account) (k : String) (v : Option Account) :
    String → Option Account :=
  fun x => if x = k then v else f x

/-! # Admin gate and deposit (`functions/index.js`, lines 133-136, 330-391) -/

/-- The check `key && req.headers["x-admin-key"] === key`: an unset or empty
`ADMIN_API_KEY` is falsy, otherwise the header must be strictly equal. -/
def isAdmin (adminKey : Option String) (hdrKey : Option String) : Bool :=
  match adminKey with
  | none => false
  | some k => if k = "" then false else decide (hdrKey = some k)

/-- The `/deposit` handler after method dispatch: admin gate, validation,
then a transaction crediting `balances[currency]` and appending one
`deposit` journal entry.  `ACCOUNT_NOT_FOUND` is mapped to 404 by the catch
block. -/
def deposit (adminKey hdrKey : Option String) (st : LedgerState)
    (accountId : String) (amount : ℚ) (currency : String) : ℕ × LedgerState :=
  if isAdmin adminKey hdrKey = false then (403, st)
  else if accountId = "" ∨ amount ≤ 0 then (400, st)
  else if ¬ currency ∈ SUPPORTED then (400, st)
  else
    match st.accounts accountId with
    | none => (404, st)
    | some acct =>
      let cur := acct.balances currency
      let balAfter := cur + amount
      (200,
        { accounts := setAccount st.accounts accountId
            (some { acct with balances := setBal acct.balances currency balAfter })
          journal := st.journal ++
            [{ accountId := accountId, type := "deposit", currency := currency,
               amount := amount, balanceBefore := cur, balanceAfter := balAfter,
               description := currency ++ " deposit", metadata := TxMeta.noMeta }] })

/-! # Transfer (`functions/index.js`, lines 395-499) -/

/-- The `/transfer` handler after method dispatch and authentication.
Inside the transaction a missing sender throws `SENDER_NOT_FOUND` and a
missing recipient throws `RECIPIENT_NOT_FOUND`; the catch block maps
`INSUFFICIENT_FUNDS` to 402 and `RECIPIENT_NOT_FOUND` to 404, and every
other error — including `SENDER_NOT_FOUND` — falls through to 500. -/
def transfer (st : LedgerState) (uid : String) (toAccountId : String)
    (amount : ℚ) (currency : String) (description : Option String) : ℕ × LedgerState :=
  if toAccountId = "" ∨ amount ≤ 0 then (400, st)
  else if ¬ currency ∈ SUPPORTED then (400, st)
  else if toAccountId = uid then (400, st)
  else
    match st.accounts uid, st.accounts toAccountId with
    | none, _ => (500, st)
    | some _, none => (404, st)
    | some s, some r =>
      let sBal := s.balances currency
      if sBal < amount then (402, st)
      else
        let rBal := r.balances currency
        let senderAfter := sBal - amount
        let desc :=
          match description with
          | some d => if d = "" then "Transfer" else d
          | none => "Transfer"
        (200,
          { accounts :=
              setAccount
                (setAccount st.accounts uid
                  (some { s with balances := setBal s.balances currency senderAfter }))
                toAccountId
                (some { r with balances := setBal r.balances currency (rBal + amount) })
            journal := st.journal ++
              [{ accountId := uid, type := "transfer_out", currency := currency,
                 amount := amount, balanceBefore := sBal, balanceAfter := senderAfter,
                 description := desc, metadata := TxMeta.party toAccountId },
               { accountId := toAccountId, type := "transfer_in", currency := currency,
                 amount := amount, balanceBefore := rBal, balanceAfter := rBal + amount,
                 description := desc, metadata := TxMeta.party uid }] })

/-! # Currency conversion (`functions/index.js`, lines 88-100, 503-607) -/

/-- The `convertCurrency` function.  `none` embeds a thrown exception:
`BigInt(amount)` throws on a non-integer, `BigInt(UNITS[c])` throws on
`undefined`, and BigInt division throws on a zero divisor.  `Math.round`
is `⌊x + 1/2⌋` and BigInt division truncates toward zero (`Int.tdiv`). -/
def convertCurrency (fromC toC : String) (amount : ℚ) (rates : String → ℚ) : Option ℚ :=
  if fromC = toC then some amount
  else
    match UNITS fromC, UNITS toC with
    | some fromU, some toU =>
      if amount.den = 1 then
        let fromCents : ℤ := ⌊rates fromC * 100 + 1/2⌋
        let toCents : ℤ := ⌊rates toC * 100 + 1/2⌋
        if (fromU : ℤ) * toCents = 0 then none
        else some (((amount.num * fromCents * toU).tdiv ((fromU : ℤ) * toCents) : ℤ) : ℚ)
      else none
    | _, _ => none

/-- The `/convert` handler after method dispatch and authentication, with
the exchange rates (fetched outside the transaction) passed in.  A throw
out of `convertCurrency` happens before the `try` block and surfaces as an
internal error (500); a `converted <= 0` quote is rejected with 400 before
any transaction is opened; inside the transaction `ACCOUNT_NOT_FOUND` is
unmapped in the catch block (500) and `INSUFFICIENT_FUNDS` maps to 402. -/
def convert (st : LedgerState) (uid : String) (fromC toC : String)
    (amount : ℚ) (rates : String → ℚ) : ℕ × LedgerState :=
  if fromC = "" ∨ toC = "" ∨ amount ≤ 0 then (400, st)
  else if fromC = toC then (400, st)
  else if ¬ fromC ∈ SUPPORTED ∨ ¬ toC ∈ SUPPORTED then (400, st)
  else
    match convertCurrency fromC toC amount rates with
    | none => (500, st)
    | some converted =>
      if converted ≤ 0 then (400, st)
      else
        match st.accounts uid with
        | none => (500, st)
        | some acct =>
          let fromBal := acct.balances fromC
          if fromBal < amount then (402, st)
          else
            let toBal := acct.balances toC
            let newBals := setBal (setBal acct.balances fromC (fromBal - amount)) toC (toBal + converted)
            (200,
              { accounts := setAccount st.accounts uid (some { acct with balances := newBals })
                journal := st.journal ++
                  [{ accountId := uid, type := "conversion", currency := fromC,
                     amount := amount, balanceBefore := fromBal,
                     balanceAfter := fromBal - amount,
                     description := "Convert " ++ fromC ++ " → " ++ toC,
                     metadata := TxMeta.conv fromC toC amount converted
                       (rates fromC / rates toC) }] })

/-! # Chat completions (`unnamed/part_000`, lines 233-341) -/

structure Usage where
  prompt_tokens : ℕ
  completion_tokens : ℕ
  deriving DecidableEq, Repr

/-- The canonical response shape after any provider translation: only the
fields the billing path reads. -/
structure CanonResponse where
  model : String
  usage : Usage
  deriving DecidableEq, Repr

/-- Outcome of the upstream `axios.post`.  `httpError` is a rejection that
carries an HTTP response (axios rejects exactly on non-2xx statuses, which
the handler forwards); `netError` is a network or timeout failure (500). -/
inductive UpstreamOutcome where
  | ok (result : CanonResponse)
  | httpError (status : ℕ)
  | netError
  deriving DecidableEq

/-- The request-body fields the completions handler itself reads: the model
(`""` embeds an absent field) and whether a truthy `tools` field is present.
The message payload is only forwarded upstream (translated for Anthropic by
`toAnthropicRequest`) and does not influence billing. -/
structure ChatRequest where
  model : String
  tools : Bool
  deriving DecidableEq, Repr

/-- The `POST /v1/chat/completions` handler after authentication, with the
secret-cache result and the upstream outcome passed in.  The debit
transaction re-reads the balance, throws `INSUFFICIENT_FUNDS` (mapped to
402, no writes) when it is below the cost, and otherwise commits the debit
together with exactly one `llm_usage` journal entry.  The cost is computed
from the model and usage of the upstream response. -/
def chatCompletion (st : LedgerState) (uid : String) (req : ChatRequest)
    (apiKey : Option String) (upstream : UpstreamOutcome) : ℕ × LedgerState :=
  if req.model = "" then (400, st)
  else if detectProvider req.model = "anthropic" ∧ req.tools = true then (400, st)
  else
    match st.accounts uid with
    | none => (404, st)
    | some acct =>
      if acct.balances "USD" < (MIN_BALANCE_MICROS : ℚ) then (402, st)
      else
        match apiKey with
        | none => (503, st)
        | some _ =>
          match upstream with
          | .netError => (500, st)
          | .httpError s => (s, st)
          | .ok result =>
            let cost := calculateCostMicros result.model
              result.usage.prompt_tokens result.usage.completion_tokens
            let current := acct.balances "USD"
            if current < (cost : ℚ) then (402, st)
            else
              let balanceAfter := current - (cost : ℚ)
              (200,
                { accounts := setAccount st.accounts uid
                    (some { acct with balances := setBal acct.balances "USD" balanceAfter })
                  journal := st.journal ++
                    [{ accountId := uid, type := "llm_usage", currency := "USD",
                       amount := (cost : ℚ), balanceBefore := current,
                       balanceAfter := balanceAfter,
                       description := result.model ++ " completion",
                       metadata := TxMeta.llm (detectProvider req.model) result.model
                         result.usage.prompt_tokens result.usage.completion_tokens }] })

/-! # Sample data used by witnesses -/

def acctAlice : Account :=
  { balances := fun c => if c = "USD" then 5000000 else 0, status := "active" }

def acctBob : Account :=
  { balances := fun _ => 0, status := "active" }

def st0 : LedgerState :=
  { accounts := fun id =>
      if id = "alice" then some acctAlice
      else if id = "bob" then some acctBob
      else none
    journal := [] }

/-! # Arithmetic helper lemmas -/

/-- Ceiling of a quotient by one million, rewritten as natural division. -/
theorem ceil_millionth (a : ℕ) :
    ⌈((a : ℚ)) / 1000000⌉ = (((a + 999999) / 1000000 : ℕ) : ℤ) := by
  have h2 : ((a : ℚ)) / 1000000 = -((((-(a : ℤ)) : ℤ) : ℚ) / ((1000000 : ℕ) : ℚ)) := by
    push_cast
    ring
  rw [h2, Int.ceil_neg, Rat.floor_intCast_div_natCast]
  omega

/-- Evaluation form of the cost engine: the rational ceiling equals the
natural-number expression `(p * input + c * output + 999999) / 1000000`. -/
theorem calculateCostMicros_eq (m : String) (p c : ℕ) :
    calculateCostMicros m p c
      = (p * (pricingFor m).input + c * (pricingFor m).output + 999999) / 1000000 := by
  unfold calculateCostMicros
  rw [ceil_millionth]
  exact Int.toNat_natCast _

/-- C5: the cost engine returns the ceiling of
`(p * input_rate + c * output_rate) / 10⁶`, the rates coming from the
pricing row of the model, or from the default — identical to the `gpt-4o`
row `{input: 2_500_000, output: 10_000_000}` — when the model is unknown;
the cost of zero tokens is zero and the result is a non-negative integer
(its value as an integer is exactly the rational ceiling, never clipped). -/
theorem c5_cost_engine (m : String) (p c : ℕ) :
    calculateCostMicros m p c
        = (p * (pricingFor m).input + c * (pricingFor m).output + 999999) / 1000000
    ∧ (calculateCostMicros m p c : ℤ)
        = ⌈((p * (pricingFor m).input + c * (pricingFor m).output : ℕ) : ℚ) / 1000000⌉
    ∧ calculateCostMicros m 0 0 = 0
    ∧ (PRICING m = none → calculateCostMicros m p c = calculateCostMicros "gpt-4o" p c)
    ∧ DEFAULT_PRICING = ⟨2500000, 10000000⟩
    ∧ PRICING "gpt-4o" = some DEFAULT_PRICING := by
  refine ⟨calculateCostMicros_eq m p c, ?_, ?_, ?_, rfl, rfl⟩
  · rw [calculateCostMicros_eq m p c, ceil_millionth]
  · unfold calculateCostMicros
    norm_num
  · intro hnone
    rw [calculateCostMicros_eq m p c, calculateCostMicros_eq "gpt-4o" p c]
    unfold pricingFor
    rw [hnone]
    rfl

/-- Witness for C5 at a model absent from the pricing table. -/
theorem c5_cost_engine_witness :
    PRICING "mystery-model" = none
    ∧ calculateCostMicros "mystery-model" 100 50 = calculateCostMicros "gpt-4o" 100 50 :=
  ⟨by decide, (c5_cost_engine "mystery-model" 100 50).2.2.2.1 (by decide)⟩

/-- C9: the admin check succeeds only when `ADMIN_API_KEY` is set and the
`X-Admin-Key` header is byte-equal to it; for any other header value —
injection payloads included — the deposit handler answers 403 and leaves
the accounts and the journal untouched. -/
theorem c9_admin_gate :
    (∀ adminKey hdrKey, isAdmin adminKey hdrKey = true →
        ∃ k, adminKey = some k ∧ hdrKey = some k)
    ∧ (∀ adminKey hdrKey st accountId amount currency,
        (∀ k, adminKey = some k → hdrKey ≠ some k) →
        deposit adminKey hdrKey st accountId amount currency = (403, st)) := by
  constructor
  · intro adminKey hdrKey h
    match adminKey with
    | none => simp [isAdmin] at h
    | some k =>
      simp only [isAdmin] at h
      split at h
      · exact absurd h (by simp)
      · exact ⟨k, rfl, of_decide_eq_true h⟩
  · intro adminKey hdrKey st accountId amount currency hne
    have hfalse : isAdmin adminKey hdrKey = false := by
      match adminKey with
      | none => rfl
      | some k =>
        simp only [isAdmin]
        split
        · rfl
        · exact decide_eq_false (hne k rfl)
    unfold deposit
    rw [hfalse]
    simp

/-- Witness for C9: a header carrying an injection payload is refused. -/
theorem c9_admin_gate_witness :
    deposit (some "test-admin-key") (some "x OR 1=1 --") st0 "alice" 5 "USD" = (403, st0) :=
  c9_admin_gate.2 (some "test-admin-key") (some "x OR 1=1 --") st0 "alice" 5 "USD"
    (fun k hk => by
      cases hk
      decide)

/-- C3 (code bug): the deposit validation accepts any positive JS number,
so an admin deposit of `0.5` commits and leaves a fractional `USD` balance,
violating the integrality half of the balance invariant. -/
theorem c3_fractional_deposit :
    (deposit (some "adm") (some "adm") st0 "alice" (1/2) "USD").1 = 200
    ∧ ((deposit (some "adm") (some "adm") st0 "alice" (1/2) "USD").2.accounts "alice").map
        (fun a => a.balances "USD") = some (5000000 + 1/2)
    ∧ (5000000 + 1/2 : ℚ).den ≠ 1
    ∧ ((deposit (some "adm") (some "adm") st0 "alice" (1/2) "USD").2.journal).length = 1 := by
  refine ⟨?_, ?_, by norm_num, ?_⟩ <;>
    simp +decide [deposit, isAdmin, st0, acctAlice, acctBob, setBal, setAccount, SUPPORTED]

/-! # Conversion claims -/

/-- A rate snapshot as defined by the data model: a positive USD price for
every supported currency (USD itself pinned to 1 by the oracle client). -/
structure RateSnapshot where
  rates : String → ℚ
  pos : ∀ c, c ∈ SUPPORTED → 0 < rates c

theorem UNITS_pos {c : String} {u : ℕ} (h : UNITS c = some u) : 0 < u := by
  unfold UNITS at h
  split_ifs at h <;> simp_all <;> omega

theorem UNITS_isSome_of_mem {c : String} (h : c ∈ SUPPORTED) : ∃ u, UNITS c = some u := by
  simp only [SUPPORTED, List.mem_cons, List.not_mem_nil, or_false] at h
  rcases h with h | h | h | h | h <;> subst h <;> exact ⟨_, rfl⟩

/-- C10: over supported currencies `from ≠ to`, a positive integer amount
and any rate snapshot whose target price rounds to at least one cent
(`round(rate[to]·100) ≥ 1`), `convertCurrency` returns a non-negative
integer without throwing; when the target price rounds to zero cents the
BigInt division has a zero divisor and the call throws instead of
returning (embedded as `none`). -/
theorem c10_convert_totality :
    (∀ fromC toC (a : ℤ) (r : RateSnapshot),
        fromC ∈ SUPPORTED → toC ∈ SUPPORTED → fromC ≠ toC → 0 < a →
        1 ≤ ⌊r.rates toC * 100 + 1/2⌋ →
        ∃ v : ℤ, convertCurrency fromC toC (a : ℚ) r.rates = some ((v : ℤ) : ℚ) ∧ 0 ≤ v)
    ∧ (∀ fromC toC (a : ℤ) (r : RateSnapshot),
        fromC ∈ SUPPORTED → toC ∈ SUPPORTED → fromC ≠ toC →
        ⌊r.rates toC * 100 + 1/2⌋ = 0 →
        convertCurrency fromC toC (a : ℚ) r.rates = none) := by
  constructor
  · intro fromC toC a r hf ht hne ha htc
    obtain ⟨fromU, huF⟩ := UNITS_isSome_of_mem hf
    obtain ⟨toU, huT⟩ := UNITS_isSome_of_mem ht
    have hfU : 0 < fromU := UNITS_pos huF
    have hfc : (0 : ℤ) ≤ ⌊r.rates fromC * 100 + 1/2⌋ := by
      have hpos := r.pos fromC hf
      apply Int.floor_nonneg.mpr
      positivity
    have hdiv : ((fromU : ℤ) * ⌊r.rates toC * 100 + 1/2⌋) ≠ 0 := by
      have h1 : (0 : ℤ) < (fromU : ℤ) := by exact_mod_cast hfU
      nlinarith
    refine ⟨(a * ⌊r.rates fromC * 100 + 1/2⌋ * (toU : ℤ)).tdiv
      ((fromU : ℤ) * ⌊r.rates toC * 100 + 1/2⌋), ?_, ?_⟩
    · simp only [convertCurrency, if_neg hne, huF, huT, Rat.den_intCast, Rat.num_intCast,
        if_pos rfl, if_true, if_neg hdiv]
    · apply Int.tdiv_nonneg
      · have h2 : (0 : ℤ) ≤ (toU : ℤ) := by positivity
        have h3 : (0 : ℤ) ≤ a := le_of_lt ha
        exact mul_nonneg (mul_nonneg h3 hfc) h2
      · have h1 : (0 : ℤ) ≤ (fromU : ℤ) := by positivity
        have h4 : (0 : ℤ) ≤ ⌊r.rates toC * 100 + 1/2⌋ := by linarith
        exact mul_nonneg h1 h4
  · intro fromC toC a r hf ht hne htc
    obtain ⟨fromU, huF⟩ := UNITS_isSome_of_mem hf
    obtain ⟨toU, huT⟩ := UNITS_isSome_of_mem ht
    simp only [convertCurrency, if_neg hne, huF, huT, Rat.den_intCast, if_pos rfl, htc,
      mul_zero, if_true]

/-- Sample rates with a sub-half-cent ETH price, used by the C10 witness. -/
def lowRates : RateSnapshot :=
  ⟨fun c => if c = "ETH" then 1/1000 else 1, by
    intro c _
    show (0 : ℚ) < if c = "ETH" then 1/1000 else 1
    split_ifs <;> norm_num⟩

/-- Witness for C10: with a target price of one dollar the conversion
returns a non-negative integer, and with a target price of a tenth of a
cent it throws. -/
theorem c10_convert_totality_witness :
    (∃ v : ℤ, convertCurrency "USD" "BTC" ((5 : ℤ) : ℚ) lowRates.rates = some ((v : ℤ) : ℚ)
        ∧ 0 ≤ v)
    ∧ convertCurrency "USD" "ETH" ((5 : ℤ) : ℚ) lowRates.rates = none := by
  have hrB : lowRates.rates "BTC" = 1 := by simp +decide [lowRates]
  have hrE : lowRates.rates "ETH" = 1/1000 := by simp +decide [lowRates]
  have hBTC : ⌊lowRates.rates "BTC" * 100 + 1/2⌋ = (100 : ℤ) := by
    rw [hrB]
    norm_num [Int.floor_eq_iff]
  have hETH : ⌊lowRates.rates "ETH" * 100 + 1/2⌋ = (0 : ℤ) := by
    rw [hrE]
    norm_num [Int.floor_eq_iff]
  constructor
  · exact c10_convert_totality.1 "USD" "BTC" 5 lowRates (by decide) (by decide) (by decide)
      (by norm_num) (by rw [hBTC]; norm_num)
  · exact c10_convert_totality.2 "USD" "ETH" 5 lowRates (by decide) (by decide) (by decide) hETH

/-- C7: the converted amount is
`(amount * round(rate_from*100) * u_to) tdiv (u_from * round(rate_to*100))`
(BigInt truncating division); a quote of zero (or less) is rejected with
400 before any transaction is opened, leaving the store untouched; and
`convertCurrency` with `from = to` returns the amount unchanged. -/
theorem c7_convert_formula :
    (∀ fromC toC (a : ℤ) (rates : String → ℚ) (fromU toU : ℕ),
        fromC ≠ toC → UNITS fromC = some fromU → UNITS toC = some toU →
        0 < a → 1 ≤ ⌊rates toC * 100 + 1/2⌋ →
        convertCurrency fromC toC (a : ℚ) rates
          = some (((a * ⌊rates fromC * 100 + 1/2⌋ * (toU : ℤ)).tdiv
              ((fromU : ℤ) * ⌊rates toC * 100 + 1/2⌋) : ℤ) : ℚ))
    ∧ (∀ st uid fromC toC (amount : ℚ) (rates : String → ℚ) (v : ℚ),
        fromC ≠ "" → toC ≠ "" → ¬ amount ≤ 0 → fromC ≠ toC →
        fromC ∈ SUPPORTED → toC ∈ SUPPORTED →
        convertCurrency fromC toC amount rates = some v → v ≤ 0 →
        convert st uid fromC toC amount rates = (400, st))
    ∧ (∀ c (amount : ℚ) (rates : String → ℚ),
        convertCurrency c c amount rates = some amount) := by
  refine ⟨?_, ?_, ?_⟩
  · intro fromC toC a rates fromU toU hne huF huT _ htc
    have hfU : 0 < fromU := UNITS_pos huF
    have hdiv : ((fromU : ℤ) * ⌊rates toC * 100 + 1/2⌋) ≠ 0 := by
      have h1 : (0 : ℤ) < (fromU : ℤ) := by exact_mod_cast hfU
      nlinarith
    simp only [convertCurrency, if_neg hne, huF, huT, Rat.den_intCast, Rat.num_intCast,
      if_pos rfl, if_true, if_neg hdiv]
  · intro st uid fromC toC amount rates v hf ht hamt hne hfs hts hconv hv
    have hval : ¬ (fromC = "" ∨ toC = "" ∨ amount ≤ 0) := by
      push_neg
      exact ⟨hf, ht, not_le.mp hamt⟩
    have hsup : ¬ (¬ fromC ∈ SUPPORTED ∨ ¬ toC ∈ SUPPORTED) := by
      push_neg
      exact ⟨hfs, hts⟩
    simp only [convert, if_neg hval, if_neg hne, if_neg hsup, hconv, if_pos hv]
  · intro c amount rates
    simp [convertCurrency]

/-- Sample rates pricing ETH at 3500 USD, used by the C7 witness. -/
def sampleRates : String → ℚ := fun c => if c = "ETH" then 3500 else 1

/-- Witness for C7: the ETH→USD formula at a concrete input, a one-micro
USD→ETH conversion quoting to zero being rejected with 400 before any
write, and the same-currency identity. -/
theorem c7_convert_formula_witness :
    convertCurrency "ETH" "USD" ((1000000000 : ℤ) : ℚ) sampleRates
        = some (((1000000000 * ⌊sampleRates "ETH" * 100 + 1/2⌋ * ((1000000 : ℕ) : ℤ)).tdiv
            (((1000000000 : ℕ) : ℤ) * ⌊sampleRates "USD" * 100 + 1/2⌋) : ℤ) : ℚ)
    ∧ convert st0 "alice" "USD" "ETH" ((1 : ℤ) : ℚ) sampleRates = (400, st0)
    ∧ convertCurrency "USD" "USD" 7 sampleRates = some 7 := by
  have hrU : sampleRates "USD" = 1 := by simp +decide [sampleRates]
  have hrE : sampleRates "ETH" = 3500 := by simp +decide [sampleRates]
  have hUSD : ⌊sampleRates "USD" * 100 + 1/2⌋ = (100 : ℤ) := by
    rw [hrU]
    norm_num [Int.floor_eq_iff]
  have hETH : ⌊sampleRates "ETH" * 100 + 1/2⌋ = (350000 : ℤ) := by
    rw [hrE]
    norm_num [Int.floor_eq_iff]
  refine ⟨?_, ?_, c7_convert_formula.2.2 "USD" 7 sampleRates⟩
  · exact c7_convert_formula.1 "ETH" "USD" 1000000000 sampleRates 1000000000 1000000
      (by decide) (by decide) (by decide) (by norm_num) (by rw [hUSD]; norm_num)
  · have hconv := c7_convert_formula.1 "USD" "ETH" 1 sampleRates 1000000 1000000000
      (by decide) (by decide) (by decide) (by norm_num) (by rw [hETH]; norm_num)
    rw [hUSD, hETH] at hconv
    have heval : ((1 * (100 : ℤ) * ((1000000000 : ℕ) : ℤ)).tdiv
        (((1000000 : ℕ) : ℤ) * 350000) : ℤ) = 0 := by decide
    rw [heval] at hconv
    exact c7_convert_formula.2.1 st0 "alice" "USD" "ETH" ((1 : ℤ) : ℚ) sampleRates 0
      (by decide) (by decide) (by norm_num) (by decide) (by decide) (by decide) hconv le_rfl

/-! # Transfer claims -/

theorem setAccount_same (f : String → Option Account) (k : String) (v : Option Account) :
    setAccount f k v k = v := by
  simp [setAccount]

theorem setBal_same (f : String → ℚ) (k : String) (v : ℚ) : setBal f k v k = v := by
  simp [setBal]

/-- C6: a transfer that passes validation and both existence checks, with a
sufficient sender balance, returns 200 and commits exactly this state: the
sender debited by the amount, the recipient credited by the amount, and two
journal entries appended in the same transaction — `transfer_out` on the
sender and `transfer_in` on the recipient, both with the transferred amount
and currency, `balanceAfter = balanceBefore - amount` on the sender side and
`balanceAfter = balanceBefore + amount` on the recipient side, and a
`counterparty` metadata field naming the other party. -/
theorem c6_transfer_integrity
    (st : LedgerState) (uid toAccountId : String) (amount : ℚ) (currency : String)
    (description : Option String) (s r : Account)
    (h1 : toAccountId ≠ "") (h2 : 0 < amount) (h3 : currency ∈ SUPPORTED)
    (h4 : toAccountId ≠ uid)
    (hs : st.accounts uid = some s) (hr : st.accounts toAccountId = some r)
    (hbal : amount ≤ s.balances currency) :
    transfer st uid toAccountId amount currency description
      = (200,
          { accounts :=
              setAccount
                (setAccount st.accounts uid
                  (some { s with balances := setBal s.balances currency (s.balances currency - amount) }))
                toAccountId
                (some { r with balances := setBal r.balances currency (r.balances currency + amount) })
            journal := st.journal ++
              [{ accountId := uid, type := "transfer_out", currency := currency,
                 amount := amount, balanceBefore := s.balances currency,
                 balanceAfter := s.balances currency - amount,
                 description := (match description with
                   | some d => if d = "" then "Transfer" else d
                   | none => "Transfer"),
                 metadata := TxMeta.party toAccountId },
               { accountId := toAccountId, type := "transfer_in", currency := currency,
                 amount := amount, balanceBefore := r.balances currency,
                 balanceAfter := r.balances currency + amount,
                 description := (match description with
                   | some d => if d = "" then "Transfer" else d
                   | none => "Transfer"),
                 metadata := TxMeta.party uid }] }) := by
  unfold transfer
  rw [if_neg (by push_neg; exact ⟨h1, h2⟩), if_neg (not_not_intro h3), if_neg h4]
  simp only [hs, hr]
  rw [if_neg (not_lt.mpr hbal)]

/-- Witness for C6: the seed scenario — alice (USD 5_000_000) sends
1_000_000 micros to bob — succeeds. -/
theorem c6_transfer_integrity_witness :
    (transfer st0 "alice" "bob" 1000000 "USD" (some "seed")).1 = 200 := by
  rw [c6_transfer_integrity st0 "alice" "bob" 1000000 "USD" (some "seed") acctAlice acctBob
    (by decide) (by norm_num) (by decide) (by decide) rfl rfl
    (by simp +decide [acctAlice])]

/-- C4 (amended): inside the transfer transaction a missing sender throws
the distinct code `SENDER_NOT_FOUND` and a missing recipient throws
`RECIPIENT_NOT_FOUND`, in both cases aborting with no balance write and no
journal entry; but only `RECIPIENT_NOT_FOUND` is mapped to HTTP 404 — the
catch block has no case for `SENDER_NOT_FOUND`, which therefore surfaces as
HTTP 500, not 404. -/
theorem c4_transfer_not_found :
    (∀ st uid toAccountId (amount : ℚ) currency description,
        toAccountId ≠ "" → 0 < amount → currency ∈ SUPPORTED → toAccountId ≠ uid →
        st.accounts uid = none →
        transfer st uid toAccountId amount currency description = (500, st))
    ∧ (∀ st uid toAccountId (amount : ℚ) currency description s,
        toAccountId ≠ "" → 0 < amount → currency ∈ SUPPORTED → toAccountId ≠ uid →
        st.accounts uid = some s → st.accounts toAccountId = none →
        transfer st uid toAccountId amount currency description = (404, st)) := by
  constructor
  · intro st uid toAccountId amount currency description h1 h2 h3 h4 hs
    unfold transfer
    rw [if_neg (by push_neg; exact ⟨h1, h2⟩), if_neg (not_not_intro h3), if_neg h4]
    simp only [hs]
  · intro st uid toAccountId amount currency description s h1 h2 h3 h4 hs hr
    unfold transfer
    rw [if_neg (by push_neg; exact ⟨h1, h2⟩), if_neg (not_not_intro h3), if_neg h4]
    simp only [hs, hr]

/-- Counterexample for C4 as stated: a transfer whose sender document is
missing returns HTTP 500, not the claimed 404 (the recipient exists and all
validation passes). -/
theorem c4_transfer_not_found_counterexample :
    (transfer st0 "carol" "bob" 5 "USD" Option.none).1 = 500
    ∧ (transfer st0 "carol" "bob" 5 "USD" Option.none).1 ≠ 404 := by
  constructor <;> simp +decide [transfer, st0, acctAlice, acctBob, SUPPORTED]

/-- Witness for C4 (amended): the sender-missing transfer surfaces as 500
with the store untouched, and a recipient-missing transfer returns 404 with
the store untouched. -/
theorem c4_transfer_not_found_witness :
    transfer st0 "carol" "bob" 5 "USD" Option.none = (500, st0)
    ∧ transfer st0 "alice" "carol" 5 "USD" Option.none = (404, st0) :=
  ⟨c4_transfer_not_found.1 st0 "carol" "bob" 5 "USD" Option.none
      (by decide) (by norm_num) (by decide) (by decide) rfl,
   c4_transfer_not_found.2 st0 "alice" "carol" 5 "USD" Option.none acctAlice
      (by decide) (by norm_num) (by decide) (by decide) rfl rfl⟩

/-! # Ledger core claims -/

/-- Helper: characterization of every 2xx outcome of the completions
handler.  Provided every upstream HTTP-error rejection carries a non-2xx
status (which is how axios behaves), a 2xx answer forces status 200, a
sufficient in-transaction balance, and exactly the committed debit state
with one appended `llm_usage` entry. -/
theorem chatCompletion_commit_of_2xx :
    ∀ st uid req apiKey upstream code st',
      (∀ e, upstream = UpstreamOutcome.httpError e → e < 200 ∨ 300 ≤ e) →
      chatCompletion st uid req apiKey upstream = (code, st') →
      200 ≤ code → code < 300 →
      ∃ acct result,
        st.accounts uid = some acct ∧ upstream = UpstreamOutcome.ok result ∧
        code = 200 ∧
        (calculateCostMicros result.model result.usage.prompt_tokens
            result.usage.completion_tokens : ℚ) ≤ acct.balances "USD" ∧
        st' =
          { accounts :=
              setAccount st.accounts uid
                (some { acct with balances := setBal acct.balances "USD" (acct.balances "USD" - (calculateCostMicros result.model result.usage.prompt_tokens result.usage.completion_tokens : ℚ)) })
            journal := st.journal ++
              [{ accountId := uid, type := "llm_usage", currency := "USD",
                 amount := (calculateCostMicros result.model
                   result.usage.prompt_tokens result.usage.completion_tokens : ℚ),
                 balanceBefore := acct.balances "USD",
                 balanceAfter := acct.balances "USD" - (calculateCostMicros result.model
                   result.usage.prompt_tokens result.usage.completion_tokens : ℚ),
                 description := result.model ++ " completion",
                 metadata := TxMeta.llm (detectProvider req.model) result.model
                   result.usage.prompt_tokens result.usage.completion_tokens }] } := by
  intro st uid req apiKey upstream code st' hup hcc h200 h300
  unfold chatCompletion at hcc
  split at hcc
  · simp only [Prod.mk.injEq] at hcc
    omega
  · split at hcc
    · simp only [Prod.mk.injEq] at hcc
      omega
    · split at hcc
      · simp only [Prod.mk.injEq] at hcc
        omega
      · rename_i acct hacct
        split at hcc
        · simp only [Prod.mk.injEq] at hcc
          omega
        · split at hcc
          · simp only [Prod.mk.injEq] at hcc
            omega
          · split at hcc
            · simp only [Prod.mk.injEq] at hcc
              omega
            · rename_i s
              simp only [Prod.mk.injEq] at hcc
              rcases hup s rfl with h | h <;> omega
            · rename_i result
              dsimp only at hcc
              split at hcc
              · simp only [Prod.mk.injEq] at hcc
                omega
              · rename_i hnlt
                simp only [Prod.mk.injEq] at hcc
                exact ⟨acct, result, hacct, rfl, hcc.1.symm, not_lt.mp hnlt, hcc.2.symm⟩

/-- C1: whenever the upstream call has succeeded but the USD balance read
inside the debit transaction is below the computed cost, the handler
answers 402 with the store untouched (the transaction aborts with
`INSUFFICIENT_FUNDS`, no partial writes); and conversely a 2xx response —
under the fact that axios only yields an HTTP-error rejection for non-2xx
upstream statuses — happens only on status 200 with the debit and exactly
one `llm_usage` journal entry committed in the same transaction. -/
theorem c1_debit_atomicity :
    (∀ st uid req key result acct,
        req.model ≠ "" →
        ¬ (detectProvider req.model = "anthropic" ∧ req.tools = true) →
        st.accounts uid = some acct →
        ¬ acct.balances "USD" < (MIN_BALANCE_MICROS : ℚ) →
        acct.balances "USD" < (calculateCostMicros result.model
          result.usage.prompt_tokens result.usage.completion_tokens : ℚ) →
        chatCompletion st uid req (some key) (UpstreamOutcome.ok result) = (402, st))
    ∧ (∀ st uid req apiKey upstream code st',
        (∀ e, upstream = UpstreamOutcome.httpError e → e < 200 ∨ 300 ≤ e) →
        chatCompletion st uid req apiKey upstream = (code, st') →
        200 ≤ code → code < 300 →
        ∃ acct result,
          st.accounts uid = some acct ∧ upstream = UpstreamOutcome.ok result ∧
          code = 200 ∧
          (calculateCostMicros result.model result.usage.prompt_tokens
              result.usage.completion_tokens : ℚ) ≤ acct.balances "USD" ∧
          st' =
            { accounts :=
                setAccount st.accounts uid
                  (some { acct with balances := setBal acct.balances "USD" (acct.balances "USD" - (calculateCostMicros result.model result.usage.prompt_tokens result.usage.completion_tokens : ℚ)) })
              journal := st.journal ++
                [{ accountId := uid, type := "llm_usage", currency := "USD",
                   amount := (calculateCostMicros result.model
                     result.usage.prompt_tokens result.usage.completion_tokens : ℚ),
                   balanceBefore := acct.balances "USD",
                   balanceAfter := acct.balances "USD" - (calculateCostMicros result.model
                     result.usage.prompt_tokens result.usage.completion_tokens : ℚ),
                   description := result.model ++ " completion",
                   metadata := TxMeta.llm (detectProvider req.model) result.model
                     result.usage.prompt_tokens result.usage.completion_tokens }] }) := by
  constructor
  · intro st uid req key result acct h1 h2 hacct hpre hlt
    unfold chatCompletion
    rw [if_neg h1, if_neg h2]
    simp only [hacct]
    rw [if_neg hpre, if_pos hlt]
  · exact chatCompletion_commit_of_2xx

/-- C2: a successful completion (HTTP 200) debits, and records in the
single appended `llm_usage` journal entry, exactly
`calculateCostMicros(result.model, usage.prompt_tokens, usage.completion_tokens)`
where `result` is the upstream response — the response's `model` field, not
the request's, prices the call. -/
theorem c2_bill_response_model :
    ∀ st uid req key result st',
      chatCompletion st uid req (some key) (UpstreamOutcome.ok result) = (200, st') →
      ∃ acct,
        st.accounts uid = some acct ∧
        st'.journal = st.journal ++
          [{ accountId := uid, type := "llm_usage", currency := "USD",
             amount := (calculateCostMicros result.model result.usage.prompt_tokens
               result.usage.completion_tokens : ℚ),
             balanceBefore := acct.balances "USD",
             balanceAfter := acct.balances "USD" - (calculateCostMicros result.model
               result.usage.prompt_tokens result.usage.completion_tokens : ℚ),
             description := result.model ++ " completion",
             metadata := TxMeta.llm (detectProvider req.model) result.model
               result.usage.prompt_tokens result.usage.completion_tokens }] ∧
        st'.accounts uid =
          some { acct with balances := setBal acct.balances "USD" (acct.balances "USD" - (calculateCostMicros result.model result.usage.prompt_tokens result.usage.completion_tokens : ℚ)) } := by
  intro st uid req key result st' hcc
  obtain ⟨acct, result', hacct, hok, -, -, hst'⟩ :=
    chatCompletion_commit_of_2xx st uid req (some key) (UpstreamOutcome.ok result) 200 st'
      (fun e h => UpstreamOutcome.noConfusion h) hcc (by omega) (by omega)
  injection hok with h
  subst h
  refine ⟨acct, hacct, ?_, ?_⟩
  · rw [hst']
  · rw [hst']
    exact setAccount_same _ _ _

/-- Request and responses used by the completion witnesses. -/
def reqG : ChatRequest := ⟨"gpt-4o", false⟩

def respBig : CanonResponse := ⟨"gpt-4o", ⟨4000000, 0⟩⟩

def resp750 : CanonResponse := ⟨"gpt-4o", ⟨100, 50⟩⟩

/-- Witness for C1: a $10 request against a $5 balance aborts with 402 and
no state change, and a 750-micro request with the same balance is a 2xx
outcome, which the theorem resolves into the committed debit. -/
theorem c1_debit_atomicity_witness :
    chatCompletion st0 "alice" reqG (some "k") (UpstreamOutcome.ok respBig) = (402, st0)
    ∧ (∃ acct result,
        st0.accounts "alice" = some acct
        ∧ UpstreamOutcome.ok resp750 = UpstreamOutcome.ok result
        ∧ (chatCompletion st0 "alice" reqG (some "k") (UpstreamOutcome.ok resp750)).1 = 200
        ∧ (calculateCostMicros result.model result.usage.prompt_tokens
            result.usage.completion_tokens : ℚ) ≤ acct.balances "USD"
        ∧ (chatCompletion st0 "alice" reqG (some "k") (UpstreamOutcome.ok resp750)).2 =
            { accounts :=
                setAccount st0.accounts "alice"
                  (some { acct with balances := setBal acct.balances "USD" (acct.balances "USD" - (calculateCostMicros result.model result.usage.prompt_tokens result.usage.completion_tokens : ℚ)) })
              journal := st0.journal ++
                [{ accountId := "alice", type := "llm_usage", currency := "USD",
                   amount := (calculateCostMicros result.model
                     result.usage.prompt_tokens result.usage.completion_tokens : ℚ),
                   balanceBefore := acct.balances "USD",
                   balanceAfter := acct.balances "USD" - (calculateCostMicros result.model
                     result.usage.prompt_tokens result.usage.completion_tokens : ℚ),
                   description := result.model ++ " completion",
                   metadata := TxMeta.llm (detectProvider reqG.model) result.model
                     result.usage.prompt_tokens result.usage.completion_tokens }] }) := by
  have hcostBig : calculateCostMicros "gpt-4o" 4000000 0 = 10000000 := by
    rw [calculateCostMicros_eq]
    decide
  have hcost750 : calculateCostMicros "gpt-4o" 100 50 = 750 := by
    rw [calculateCostMicros_eq]
    decide
  constructor
  · refine c1_debit_atomicity.1 st0 "alice" reqG "k" respBig acctAlice
      (by decide) (by decide) rfl ?_ ?_
    · simp +decide [acctAlice, MIN_BALANCE_MICROS]
    · show acctAlice.balances "USD" < (calculateCostMicros "gpt-4o" 4000000 0 : ℚ)
      rw [hcostBig]
      simp +decide [acctAlice]
  · have e1 : (chatCompletion st0 "alice" reqG (some "k")
        (UpstreamOutcome.ok resp750)).1 = 200 := by
      simp +decide [chatCompletion, reqG, resp750, st0, acctAlice, detectProvider,
        MIN_BALANCE_MICROS, hcost750]
    have hcc : chatCompletion st0 "alice" reqG (some "k") (UpstreamOutcome.ok resp750)
        = ((chatCompletion st0 "alice" reqG (some "k") (UpstreamOutcome.ok resp750)).1,
           (chatCompletion st0 "alice" reqG (some "k") (UpstreamOutcome.ok resp750)).2) := rfl
    rw [e1] at hcc
    obtain ⟨acct, result, hacct, hok, -, hcost, hst⟩ :=
      c1_debit_atomicity.2 st0 "alice" reqG (some "k") (UpstreamOutcome.ok resp750)
        200 _ (fun e h => UpstreamOutcome.noConfusion h) hcc (by omega) (by omega)
    exact ⟨acct, result, hacct, hok, e1, hcost, hst⟩

/-- Witness for C2: the payload-manipulation scenario — the request asks
for `gpt-3.5-turbo`, the upstream answers with model `gpt-4o` and usage
(100, 50), and the journal entry bills `cost("gpt-4o", 100, 50) = 750`
micros, not the 125 the request model would cost.  (The spec's scenario S4
quotes these two figures with an extra factor of ten, 7500 and 1250; the
cost function it defines yields 750 and 125.) -/
theorem c2_bill_response_model_witness :
    (∃ acct,
      st0.accounts "alice" = some acct ∧
      (chatCompletion st0 "alice" ⟨"gpt-3.5-turbo", false⟩ (some "k")
          (UpstreamOutcome.ok resp750)).2.journal = st0.journal ++
        [{ accountId := "alice", type := "llm_usage", currency := "USD",
           amount := (calculateCostMicros resp750.model resp750.usage.prompt_tokens
             resp750.usage.completion_tokens : ℚ),
           balanceBefore := acct.balances "USD",
           balanceAfter := acct.balances "USD" - (calculateCostMicros resp750.model
             resp750.usage.prompt_tokens resp750.usage.completion_tokens : ℚ),
           description := resp750.model ++ " completion",
           metadata := TxMeta.llm (detectProvider "gpt-3.5-turbo") resp750.model
             resp750.usage.prompt_tokens resp750.usage.completion_tokens }] ∧
      (chatCompletion st0 "alice" ⟨"gpt-3.5-turbo", false⟩ (some "k")
          (UpstreamOutcome.ok resp750)).2.accounts "alice" =
        some { acct with balances := setBal acct.balances "USD" (acct.balances "USD" - (calculateCostMicros resp750.model resp750.usage.prompt_tokens resp750.usage.completion_tokens : ℚ)) })
    ∧ calculateCostMicros resp750.model resp750.usage.prompt_tokens
        resp750.usage.completion_tokens = 750
    ∧ calculateCostMicros "gpt-3.5-turbo" 100 50 = 125 := by
  have hc : calculateCostMicros "gpt-4o" 100 50 = 750 := by
    rw [calculateCostMicros_eq]
    decide
  have e1 : (chatCompletion st0 "alice" ⟨"gpt-3.5-turbo", false⟩ (some "k")
      (UpstreamOutcome.ok resp750)).1 = 200 := by
    simp +decide [chatCompletion, resp750, st0, acctAlice, detectProvider, strStartsWith,
      MIN_BALANCE_MICROS, hc]
  have hcc : chatCompletion st0 "alice" ⟨"gpt-3.5-turbo", false⟩ (some "k")
      (UpstreamOutcome.ok resp750)
      = (200, (chatCompletion st0 "alice" ⟨"gpt-3.5-turbo", false⟩ (some "k")
          (UpstreamOutcome.ok resp750)).2) := by
    rw [← e1]
  obtain ⟨acct, hacct, hj, ha⟩ :=
    c2_bill_response_model st0 "alice" ⟨"gpt-3.5-turbo", false⟩ "k" resp750 _ hcc
  refine ⟨⟨acct, hacct, hj, ha⟩, hc, ?_⟩
  rw [calculateCostMicros_eq]
  decide

/-! # Anthropic translation claims -/

theorem str_eq_of_data {s t : String} (h : s.data = t.data) : s = t := by
  cases s
  cases t
  simp_all

theorem str_append_ne_empty (s t : String) (h : s ≠ "") : s ++ t ≠ "" := by
  intro hc
  apply h
  have hd : (s ++ t).data = ("" : String).data := by rw [hc]
  rw [String.data_append] at hd
  have he : ("" : String).data = [] := rfl
  rw [he] at hd
  rcases List.append_eq_nil.mp hd with ⟨h1, -⟩
  apply str_eq_of_data
  rw [h1, he]

theorem pushCoalesce_append (ys : List ChatMsg) (x m : ChatMsg) :
    pushCoalesce (ys ++ [x]) m = ys ++ pushCoalesce [x] m := by
  induction ys with
  | nil => rfl
  | cons y ys ih =>
    cases ys with
    | nil => rfl
    | cons z zs =>
      simp only [List.cons_append, List.append_eq, pushCoalesce] at ih ⊢
      rw [ih]

theorem foldl_pushCoalesce_append (l : List ChatMsg) (ys : List ChatMsg) (x : ChatMsg) :
    List.foldl pushCoalesce (ys ++ [x]) l = ys ++ List.foldl pushCoalesce [x] l := by
  induction l generalizing ys x with
  | nil => simp
  | cons m l ih =>
    simp only [List.foldl_cons]
    rw [pushCoalesce_append]
    by_cases h : x.role = m.role
    · simp only [pushCoalesce, if_pos h]
      exact ih ys _
    · simp only [pushCoalesce, if_neg h]
      have h1 : ys ++ [x, m] = (ys ++ [x]) ++ [m] := by simp
      have h2 : ([x, m] : List ChatMsg) = [x] ++ [m] := rfl
      rw [h1, ih (ys ++ [x]) m, h2, ih [x] m, List.append_assoc]

theorem foldl_pushCoalesce_coalesce (l : List ChatMsg) (x : ChatMsg) :
    List.foldl pushCoalesce [x] l = coalesce (x :: l) := by
  induction l generalizing x with
  | nil => simp [coalesce]
  | cons m l ih =>
    simp only [List.foldl_cons]
    have hr : coalesce (x :: m :: l)
        = if x.role = m.role then coalesce (⟨x.role, x.content ++ "\n" ++ m.content⟩ :: l)
          else x :: coalesce (m :: l) := by
      simp only [coalesce]
    by_cases h : x.role = m.role
    · have hp : pushCoalesce [x] m = [⟨x.role, x.content ++ "\n" ++ m.content⟩] := by
        simp [pushCoalesce, h]
      rw [hp, ih, hr, if_pos h]
    · have hp : pushCoalesce [x] m = [x] ++ [m] := by
        simp [pushCoalesce, h]
      rw [hp, foldl_pushCoalesce_append l [x] m, ih, hr, if_neg h]
      rfl

theorem anthropicScan_snd (msgs : List ChatMsg) (sys : Option String) (fil : List ChatMsg) :
    (anthropicScan sys fil msgs).2 = List.foldl pushCoalesce fil (nonSystem msgs) := by
  induction msgs generalizing sys fil with
  | nil => simp [anthropicScan, nonSystem]
  | cons m rest ih =>
    by_cases h : m.role = "system"
    · simp [anthropicScan, h, nonSystem, List.filter_cons, ih]
    · simp [anthropicScan, h, nonSystem, List.filter_cons, ih]

theorem anthropicScan_fst (msgs : List ChatMsg) (sys : Option String) (fil : List ChatMsg) :
    (anthropicScan sys fil msgs).1 = List.foldl jsJoin sys (systemParts msgs) := by
  induction msgs generalizing sys fil with
  | nil => simp [anthropicScan, systemParts]
  | cons m rest ih =>
    by_cases h : m.role = "system"
    · simp [anthropicScan, h, systemParts, List.filter_cons, ih]
    · simp [anthropicScan, h, systemParts, List.filter_cons, ih]

theorem joinNl_ne_empty (p : String) (rest : List String) (hp : p ≠ "") :
    joinNl (p :: rest) ≠ "" := by
  cases rest with
  | nil => exact hp
  | cons t ts =>
    show (p ++ "\n") ++ joinNl (t :: ts) ≠ ""
    exact str_append_ne_empty (p ++ "\n") _ (str_append_ne_empty p "\n" hp)

theorem foldl_jsJoin_some (parts : List String) (s : String) (hs : s ≠ "") :
    List.foldl jsJoin (some s) parts = some (joinNl (s :: parts)) := by
  induction parts generalizing s with
  | nil => simp [joinNl]
  | cons p rest ih =>
    simp only [List.foldl_cons, jsJoin, if_neg hs]
    rw [ih (s ++ "\n" ++ p) (str_append_ne_empty (s ++ "\n") p (str_append_ne_empty s "\n" hs))]
    congr 1
    cases rest with
    | nil => rfl
    | cons t ts => simp [joinNl, String.append_assoc]

theorem foldl_jsJoin_none (parts : List String) (h : ∀ p ∈ parts, p ≠ "") :
    List.foldl jsJoin none parts
      = if parts = [] then none else some (joinNl parts) := by
  cases parts with
  | nil => rfl
  | cons p rest =>
    have hp : p ≠ "" := h p (List.mem_cons_self p rest)
    simp only [List.foldl_cons, jsJoin]
    rw [foldl_jsJoin_some rest p hp]
    simp

/-- C8 (amended): the translation for Anthropic concatenates the contents
of the system messages with a newline into the top-level `system` field
(stated for bodies whose system messages have non-empty content, matching
the JS truthiness of the accumulator), coalesces adjacent same-role
messages among the rest by concatenating contents with a newline, sets
`max_tokens` to the caller's value when it is present and non-zero — a
present `0` is falsy under `||` and falls through — else to the per-model
table value (8192 for each of the five known Claude models), else 4096,
and renames `stop` to `stop_sequences` (a string wrapped into a singleton
array) when it is an array or a non-empty string, dropping an absent or
empty-string `stop`. -/
theorem c8_anthropic_translation (b : ChatBody) :
    ((∀ m ∈ b.messages, m.role = "system" → m.content ≠ "") →
      (toAnthropicRequest b).system =
        (if systemParts b.messages = [] then none
         else some (joinNl (systemParts b.messages))))
    ∧ (toAnthropicRequest b).messages = coalesce (nonSystem b.messages)
    ∧ (∀ n, b.max_tokens = some n → n ≠ 0 → (toAnthropicRequest b).max_tokens = n)
    ∧ (b.max_tokens = none ∨ b.max_tokens = some 0 →
        (toAnthropicRequest b).max_tokens = (ANTHROPIC_MAX_TOKENS b.model).getD 4096)
    ∧ (∀ m, ANTHROPIC_MAX_TOKENS m = none ∨ ANTHROPIC_MAX_TOKENS m = some 8192)
    ∧ (∀ s, b.stop = some (StopVal.str s) → s ≠ "" →
        (toAnthropicRequest b).stop_sequences = some [s])
    ∧ (∀ l, b.stop = some (StopVal.arr l) → (toAnthropicRequest b).stop_sequences = some l)
    ∧ (b.stop = none ∨ b.stop = some (StopVal.str "") →
        (toAnthropicRequest b).stop_sequences = none) := by
  refine ⟨?_, ?_, ?_, ?_, ?_, ?_, ?_, ?_⟩
  · intro hne
    have hparts : ∀ p ∈ systemParts b.messages, p ≠ "" := by
      intro p hp
      simp only [systemParts, List.mem_map, List.mem_filter] at hp
      obtain ⟨m, ⟨hm, hrole⟩, rfl⟩ := hp
      exact hne m hm (by simpa using hrole)
    show jsSystemField (anthropicScan none [] b.messages).1 = _
    rw [anthropicScan_fst, foldl_jsJoin_none _ hparts]
    by_cases hp : systemParts b.messages = []
    · simp [hp, jsSystemField]
    · rw [if_neg hp]
      obtain ⟨p, rest, hpr⟩ : ∃ p rest, systemParts b.messages = p :: rest := by
        cases hl : systemParts b.messages with
        | nil => exact absurd hl hp
        | cons a l => exact ⟨a, l, rfl⟩
      have hpne : p ≠ "" := hparts p (by rw [hpr]; exact List.mem_cons_self p rest)
      rw [hpr]
      simp [jsSystemField, joinNl_ne_empty p rest hpne]
  · show (anthropicScan none [] b.messages).2 = _
    rw [anthropicScan_snd]
    cases h : nonSystem b.messages with
    | nil => simp [coalesce]
    | cons f rest =>
      have h0 : pushCoalesce [] f = [f] := rfl
      simp only [List.foldl_cons, h0]
      exact foldl_pushCoalesce_coalesce rest f
  · intro n hn hnz
    show jsMaxTokens b.max_tokens b.model = n
    rw [hn]
    simp [jsMaxTokens, hnz]
  · intro h
    show jsMaxTokens b.max_tokens b.model = _
    rcases h with h | h <;> rw [h] <;> simp [jsMaxTokens]
  · intro m
    unfold ANTHROPIC_MAX_TOKENS
    split_ifs <;> simp
  · intro s hs hne
    show jsStopSeqs b.stop = some [s]
    rw [hs]
    simp [jsStopSeqs, hne]
  · intro l hl
    show jsStopSeqs b.stop = some l
    rw [hl]
    rfl
  · intro h
    show jsStopSeqs b.stop = none
    rcases h with h | h <;> rw [h] <;> simp [jsStopSeqs]

/-- The S5 scenario body with two falsy corners added: a caller-supplied
`max_tokens` of `0` and an empty-string `stop`. -/
def exBody : ChatBody :=
  { model := "claude-sonnet-4-20250514"
    messages := [⟨"system", "You are helpful."⟩, ⟨"user", "Part 1"⟩, ⟨"user", "Part 2"⟩]
    max_tokens := some 0
    temperature := none
    top_p := none
    stop := some (StopVal.str "") }

/-- Counterexample for C8 as stated: for a present caller `max_tokens` of
`0` the translated request carries the per-model default 8192, not the
caller's value, and a present (string) `stop` of `""` is dropped instead
of being renamed to a `stop_sequences` array. -/
theorem c8_anthropic_translation_counterexample :
    (toAnthropicRequest exBody).max_tokens = 8192
    ∧ (toAnthropicRequest exBody).max_tokens ≠ 0
    ∧ (toAnthropicRequest exBody).stop_sequences = none
    ∧ (toAnthropicRequest exBody).stop_sequences ≠ some [""] := by
  refine ⟨by decide, by decide, by decide, by decide⟩

/-- The S5 scenario body as given in the spec. -/
def exS5 : ChatBody :=
  { model := "claude-sonnet-4-20250514"
    messages := [⟨"system", "You are helpful."⟩, ⟨"user", "Part 1"⟩, ⟨"user", "Part 2"⟩]
    max_tokens := none
    temperature := none
    top_p := none
    stop := none }

/-- Witness for C8 (amended) at the S5 scenario: the system message is
lifted out, the two adjacent user messages are coalesced with a newline,
and `max_tokens` defaults to 8192. -/
theorem c8_anthropic_translation_witness :
    (toAnthropicRequest exS5).system = some "You are helpful."
    ∧ (toAnthropicRequest exS5).messages = [⟨"user", "Part 1\nPart 2"⟩]
    ∧ (toAnthropicRequest exS5).max_tokens = 8192 := by
  have h := c8_anthropic_translation exS5
  refine ⟨?_, ?_, ?_⟩
  · rw [h.1 (by decide)]
    decide
  · rw [h.2.1]
    simp +decide [nonSystem, exS5, coalesce]
  · rw [h.2.2.2.1 (Or.inl rfl)]
    decide

end OftenAI
